import Mathlib

/-!
# Fullscreen control of the desktop runners

A shallow embedding of the fullscreen code of the two native runners:

* `windows/runner/flutter_window.cpp`: `FlutterWindow::ToggleFullscreen`,
  `EnterFullscreen`, `ExitFullscreen`, `IsFullscreen`, the method call handler
  registered in `OnCreate`, and `MessageHandler`;
* `linux/runner/my_application.cc`: `my_application_toggle_fullscreen`,
  `my_application_is_fullscreen` and `method_call_handler`.

The operating system is modelled as an explicit record that the code reads and
writes through the windowing calls it uses.  A member function of the C++ class
becomes a function from the object state to a pair (returned value, new state).
-/

namespace Runner

/-! ## Win32 side: machine integers, constants and the live window -/

/-- Wrap of an integer to the range of the 32 bit signed `LONG`. -/
def wrapLong (x : Int) : Int := (x + 2147483648) % 4294967296 - 2147483648

/-- Range of a `LONG`. -/
def inLong (x : Int) : Prop := -2147483648 ≤ x ∧ x < 2147483648

instance (x : Int) : Decidable (inLong x) := by unfold inLong; infer_instance

/-- Win32 `RECT`: four `LONG` coordinates. -/
structure RECT where
  left : Int
  top : Int
  right : Int
  bottom : Int
  deriving DecidableEq, Repr

/-- All four coordinates of a rectangle are `LONG` values. -/
def RECT.inLong (r : RECT) : Prop :=
  Runner.inLong r.left ∧ Runner.inLong r.top ∧ Runner.inLong r.right ∧ Runner.inLong r.bottom

instance (r : RECT) : Decidable r.inLong := by unfold RECT.inLong; infer_instance

/-- A style word (`LONG` returned by `GetWindowLong`) is represented by its 32 bit
pattern, a natural number below `2 ^ 32`. -/
def LongBits (v : Nat) : Prop := v < 4294967296

instance (v : Nat) : Decidable (LongBits v) := by unfold LongBits; infer_instance

/-- The operator `~` on a 32 bit pattern. -/
def notLong (m : Nat) : Nat := 0xFFFFFFFF ^^^ m

/-- Window style bit values of `winuser.h`. -/
def WS_CAPTION : Nat := 0x00C00000
def WS_THICKFRAME : Nat := 0x00040000
def WS_SYSMENU : Nat := 0x00080000
def WS_MINIMIZEBOX : Nat := 0x00020000
def WS_MAXIMIZEBOX : Nat := 0x00010000
def WS_OVERLAPPED : Nat := 0x00000000
/-- The value `WS_OVERLAPPED | WS_CAPTION | WS_SYSMENU | WS_THICKFRAME |
WS_MINIMIZEBOX | WS_MAXIMIZEBOX` of `winuser.h`. -/
def WS_OVERLAPPEDWINDOW : Nat :=
  WS_OVERLAPPED ||| WS_CAPTION ||| WS_SYSMENU ||| WS_THICKFRAME ||| WS_MINIMIZEBOX |||
    WS_MAXIMIZEBOX

/-- Extended window style bit values of `winuser.h`. -/
def WS_EX_DLGMODALFRAME : Nat := 0x00000001
def WS_EX_WINDOWEDGE : Nat := 0x00000100
def WS_EX_CLIENTEDGE : Nat := 0x00000200
def WS_EX_STATICEDGE : Nat := 0x00020000

/-- Window message numbers, virtual key codes and the hit test code used by
`MessageHandler` (values of `winuser.h`). -/
def WM_FONTCHANGE : Nat := 0x001D
def WM_KEYDOWN : Nat := 0x0100
def WM_NCLBUTTONDBLCLK : Nat := 0x00A3
def WM_LBUTTONDBLCLK : Nat := 0x0203
def VK_ESCAPE : Nat := 0x1B
def VK_F11 : Nat := 0x7A
def HTCAPTION : Nat := 2

/-- The live top-level window as the operating system holds it: what
`GetWindowLong(GWL_STYLE)`, `GetWindowLong(GWL_EXSTYLE)` and `GetWindowRect`
return. -/
structure Win32 where
  style : Nat
  exStyle : Nat
  rect : RECT
  deriving DecidableEq, Repr

/-- `SetWindowLong(hwnd, GWL_STYLE, v)`. -/
def Win32.SetStyle (w : Win32) (v : Nat) : Win32 := { w with style := v }

/-- `SetWindowLong(hwnd, GWL_EXSTYLE, v)`. -/
def Win32.SetExStyle (w : Win32) (v : Nat) : Win32 := { w with exStyle := v }

/-- `SetWindowPos(hwnd, HWND_TOP, x, y, cx, cy, SWP_NOZORDER | ...)`: the window
is placed at `(x, y)` with width `cx` and height `cy`, so that its bounding
rectangle becomes `(x, y, x + cx, y + cy)` in `LONG` arithmetic. -/
def Win32.SetWindowPos (w : Win32) (x y cx cy : Int) : Win32 :=
  { w with rect := ⟨x, y, wrapLong (x + cx), wrapLong (y + cy)⟩ }

/-- The fullscreen fields of `class FlutterWindow` together with the window the
object hosts.  `handle` is what `GetHandle()` returns: `none` is the null
handle, `some w` a valid handle whose live window is `w`. -/
structure FlutterWindow where
  handle : Option Win32
  is_fullscreen_ : Bool
  windowed_rect_ : RECT
  windowed_style_ : Nat
  windowed_ex_style_ : Nat
  deriving DecidableEq, Repr

/-- `FlutterWindow::EnterFullscreen`.  `monitor` stands for
`MonitorFromWindow(hwnd, MONITOR_DEFAULTTONEAREST)` followed by
`GetMonitorInfo`: it gives `rcMonitor` of the monitor nearest to a window with
the given bounding rectangle. -/
def FlutterWindow.EnterFullscreen (monitor : RECT → RECT) (self : FlutterWindow) :
    Bool × FlutterWindow :=
  if self.is_fullscreen_ then
    (true, self)
  else
    match self.handle with
    | none => (false, self)
    | some hwnd =>
      let windowed_style_ := hwnd.style
      let windowed_ex_style_ := hwnd.exStyle
      let windowed_rect_ := hwnd.rect
      let rcMonitor := monitor hwnd.rect
      let hwnd := hwnd.SetStyle (windowed_style_ &&& notLong (WS_CAPTION ||| WS_THICKFRAME))
      let hwnd := hwnd.SetExStyle (windowed_ex_style_ &&&
        notLong (WS_EX_DLGMODALFRAME ||| WS_EX_WINDOWEDGE ||| WS_EX_CLIENTEDGE ||| WS_EX_STATICEDGE))
      let hwnd := hwnd.SetWindowPos rcMonitor.left rcMonitor.top
        (wrapLong (rcMonitor.right - rcMonitor.left))
        (wrapLong (rcMonitor.bottom - rcMonitor.top))
      (true, { handle := some hwnd, is_fullscreen_ := true,
               windowed_rect_ := windowed_rect_, windowed_style_ := windowed_style_,
               windowed_ex_style_ := windowed_ex_style_ })

/-- `FlutterWindow::ExitFullscreen`.  `RedrawWindow` repaints and changes none of
the modelled state. -/
def FlutterWindow.ExitFullscreen (self : FlutterWindow) : Bool × FlutterWindow :=
  if !self.is_fullscreen_ then
    (true, self)
  else
    match self.handle with
    | none => (false, self)
    | some hwnd =>
      let windowed_style_ :=
        if self.windowed_style_ = 0 then WS_OVERLAPPEDWINDOW else self.windowed_style_
      let hwnd := hwnd.SetStyle windowed_style_
      let hwnd := hwnd.SetExStyle self.windowed_ex_style_
      let windowed_rect_ : RECT :=
        if self.windowed_rect_.right = 0 ∨ self.windowed_rect_.bottom = 0 then
          let r := { self.windowed_rect_ with left := 100 }
          let r := { r with top := 100 }
          let r := { r with right := wrapLong (1024 + r.left) }
          { r with bottom := wrapLong (768 + r.top) }
        else self.windowed_rect_
      let hwnd := hwnd.SetWindowPos windowed_rect_.left windowed_rect_.top
        (wrapLong (windowed_rect_.right - windowed_rect_.left))
        (wrapLong (windowed_rect_.bottom - windowed_rect_.top))
      (true, { handle := some hwnd, is_fullscreen_ := false,
               windowed_rect_ := windowed_rect_, windowed_style_ := windowed_style_,
               windowed_ex_style_ := self.windowed_ex_style_ })

/-- `FlutterWindow::ToggleFullscreen`. -/
def FlutterWindow.ToggleFullscreen (monitor : RECT → RECT) (self : FlutterWindow) :
    Bool × FlutterWindow :=
  if self.is_fullscreen_ then self.ExitFullscreen else self.EnterFullscreen monitor

/-- `FlutterWindow::IsFullscreen`. -/
def FlutterWindow.IsFullscreen (self : FlutterWindow) : Bool × FlutterWindow :=
  (self.is_fullscreen_, self)

/-- A reply sent on the method channel: `Success` with a boolean or a string,
or `NotImplemented`. -/
inductive Reply where
  | success_bool (b : Bool)
  | success_string (s : String)
  | not_implemented
  deriving DecidableEq, Repr

/-- The method call handler registered in `FlutterWindow::OnCreate`, applied to
a call whose `method_name()` is `method`. -/
def FlutterWindow.method_call_handler (monitor : RECT → RECT) (method : String)
    (self : FlutterWindow) : Reply × FlutterWindow :=
  if method = "enterFullscreen" then
    let (success, self) := self.EnterFullscreen monitor
    (Reply.success_bool success, self)
  else if method = "exitFullscreen" then
    let (success, self) := self.ExitFullscreen
    (Reply.success_bool success, self)
  else if method = "toggleFullscreen" then
    let (success, self) := self.ToggleFullscreen monitor
    (Reply.success_bool success, self)
  else if method = "isFullscreen" then
    let (is_full, self) := self.IsFullscreen
    (Reply.success_bool is_full, self)
  else if method = "ping" then
    (Reply.success_string "pong", self)
  else
    (Reply.not_implemented, self)

/-- What `FlutterWindow::MessageHandler` returns: an `LRESULT` of its own, or
the result of `Win32Window::MessageHandler`, to which the message is passed
on. -/
inductive Handled where
  | returned (r : Int)
  | passed_on
  deriving DecidableEq, Repr

/-- `FlutterWindow::MessageHandler`.  `engine` is the outcome of the first
block: `some r` when `flutter_controller_` is set and
`HandleTopLevelWindowProc` returned `r`, `none` when the message was not
consumed there.  The `WM_FONTCHANGE` case reloads the fonts of the engine,
which is none of the state kept here, and breaks. -/
def FlutterWindow.MessageHandler (monitor : RECT → RECT) (engine : Option Int)
    (message wparam : Nat) (self : FlutterWindow) : Handled × FlutterWindow :=
  match engine with
  | some result => (Handled.returned result, self)
  | none =>
    if message = WM_FONTCHANGE then
      (Handled.passed_on, self)
    else if message = WM_KEYDOWN then
      if wparam = VK_F11 then
        (Handled.returned 0, (self.ToggleFullscreen monitor).2)
      else if wparam = VK_ESCAPE ∧ self.is_fullscreen_ = true then
        (Handled.returned 0, self.ExitFullscreen.2)
      else
        (Handled.passed_on, self)
    else if message = WM_NCLBUTTONDBLCLK then
      if HTCAPTION = wparam ∧ self.is_fullscreen_ = true then
        (Handled.returned 0, self.ExitFullscreen.2)
      else
        (Handled.passed_on, self)
    else if message = WM_LBUTTONDBLCLK then
      if self.is_fullscreen_ = true then
        (Handled.returned 0, self.ExitFullscreen.2)
      else
        (Handled.passed_on, self)
    else
      (Handled.passed_on, self)

/-! ## GTK side -/

/-- The flag `GDK_WINDOW_STATE_FULLSCREEN` of `GdkWindowState` (`1 << 4`). -/
def GDK_WINDOW_STATE_FULLSCREEN : Nat := 16

/-- The main window as GTK holds it.  `gdk_window` is what
`gtk_widget_get_window` returns: `none` for `NULL`, else the GDK window,
given by the flags `gdk_window_get_state` reports for it.  `pending` are the
fullscreen state changes of this window that wait in the main loop: the
window manager applies a request asynchronously and the change arrives as an
event. -/
structure GtkWindow where
  gdk_window : Option Nat
  pending : List Bool
  deriving DecidableEq, Repr

/-- The fields of `struct _MyApplication` the fullscreen code uses; `window`
is `none` for `NULL`. -/
structure MyApplication where
  window : Option GtkWindow
  is_fullscreen : Bool
  deriving DecidableEq, Repr

/-- A window state with the fullscreen flag set or cleared. -/
def setFullscreenFlag (state : Nat) (full : Bool) : Nat :=
  if full then state ||| GDK_WINDOW_STATE_FULLSCREEN
  else state ^^^ (state &&& GDK_WINDOW_STATE_FULLSCREEN)

/-- `gtk_window_fullscreen` (`full = true`) and `gtk_window_unfullscreen`
(`full = false`): the request goes to the window manager; when it honours the
request the change is queued for the main loop, otherwise nothing happens. -/
def gtk_window_request (honours : Bool) (full : Bool) (w : GtkWindow) : GtkWindow :=
  if honours then { w with pending := w.pending ++ [full] } else w

/-- The loop `while (gtk_events_pending()) gtk_main_iteration();` on the
queued state changes: each one is applied to the GDK window in turn. -/
def drain_events : List Bool → Option Nat → Option Nat
  | [], gdk => gdk
  | full :: rest, gdk => drain_events rest (gdk.map fun state => setFullscreenFlag state full)

/-- The event drain on a window: afterwards nothing is pending. -/
def GtkWindow.drain (w : GtkWindow) : GtkWindow :=
  { gdk_window := drain_events w.pending w.gdk_window, pending := [] }

/-- `my_application_toggle_fullscreen`. -/
def my_application_toggle_fullscreen (honours : Bool) (self : MyApplication) :
    Bool × MyApplication :=
  match self.window with
  | none => (false, self)
  | some window =>
    match window.gdk_window with
    | none => (false, self)
    | some state =>
      let is_fullscreen : Bool := decide (state &&& GDK_WINDOW_STATE_FULLSCREEN ≠ 0)
      let self := { self with is_fullscreen := is_fullscreen }
      let (window, self) :=
        if self.is_fullscreen then
          (gtk_window_request honours false window, { self with is_fullscreen := false })
        else
          (gtk_window_request honours true window, { self with is_fullscreen := true })
      let window := window.drain
      (self.is_fullscreen, { self with window := some window })

/-- `my_application_is_fullscreen`. -/
def my_application_is_fullscreen (self : MyApplication) : Bool × MyApplication :=
  match self.window with
  | none => (false, self)
  | some window =>
    match window.gdk_window with
    | none => (false, self)
    | some state =>
      let is_fullscreen : Bool := decide (state &&& GDK_WINDOW_STATE_FULLSCREEN ≠ 0)
      let self := { self with is_fullscreen := is_fullscreen }
      (self.is_fullscreen, self)

/-- `method_call_handler` of `my_application.cc`, applied to a call whose name
is `method`. -/
def method_call_handler (honours : Bool) (method : String) (self : MyApplication) :
    Reply × MyApplication :=
  if method = "enterFullscreen" then
    let (currentState, self) := my_application_is_fullscreen self
    let self :=
      match self.window with
      | some window =>
        if !currentState then
          let window := gtk_window_request honours true window
          let window := window.drain
          { window := some window, is_fullscreen := true }
        else self
      | none => self
    (Reply.success_bool self.is_fullscreen, self)
  else if method = "exitFullscreen" then
    let (currentState, self) := my_application_is_fullscreen self
    let self :=
      match self.window with
      | some window =>
        if currentState then
          let window := gtk_window_request honours false window
          let window := window.drain
          { window := some window, is_fullscreen := false }
        else self
      | none => self
    (Reply.success_bool false, self)
  else if method = "toggleFullscreen" then
    let (result, self) := my_application_toggle_fullscreen honours self
    (Reply.success_bool result, self)
  else if method = "isFullscreen" then
    let (result, self) := my_application_is_fullscreen self
    (Reply.success_bool result, self)
  else
    (Reply.not_implemented, self)

/-! ## Reference definitions, written from the specification -/

/-- Reference for `EnterFullscreen`, in the words of the specification: a no-op
returning true when already fullscreen; false without any change when the
handle is invalid; otherwise the live style, extended style and rectangle are
stored, the caption and resize bits are removed from the style, the four edge
bits from the extended style, the window covers exactly the bounds of the
nearest monitor, and the flag is set. -/
def EnterFullscreen_ref (monitor : RECT → RECT) (self : FlutterWindow) :
    Bool × FlutterWindow :=
  if self.is_fullscreen_ = true then (true, self)
  else
    match self.handle with
    | none => (false, self)
    | some w =>
      (true,
        { handle := some
            { style := Nat.ldiff w.style (WS_CAPTION ||| WS_THICKFRAME)
              exStyle := Nat.ldiff w.exStyle
                (WS_EX_DLGMODALFRAME ||| WS_EX_WINDOWEDGE ||| WS_EX_CLIENTEDGE |||
                  WS_EX_STATICEDGE)
              rect := monitor w.rect }
          is_fullscreen_ := true
          windowed_rect_ := w.rect
          windowed_style_ := w.style
          windowed_ex_style_ := w.exStyle })

/-- The states on which the machine words of the model are in range: the live
style words are 32 bit patterns and the bounds of the nearest monitor are
`LONG` values. -/
def FlutterWindow.wordsInRange (monitor : RECT → RECT) (self : FlutterWindow) : Prop :=
  match self.handle with
  | none => True
  | some w => LongBits w.style ∧ LongBits w.exStyle ∧ (monitor w.rect).inLong

instance (monitor : RECT → RECT) (self : FlutterWindow) :
    Decidable (self.wordsInRange monitor) := by
  unfold FlutterWindow.wordsInRange
  cases self.handle <;> infer_instance

/-- Reference for `IsFullscreen` on Windows, in the words of the specification:
false when the handle is absent, otherwise the fullscreen bit `osBit` that the
operating system reports for the live window. -/
def IsFullscreen_ref (osBit : Win32 → Bool) (self : FlutterWindow) : Bool :=
  match self.handle with
  | none => false
  | some w => osBit w

/-- Reference for `my_application_is_fullscreen`, in the words of the
specification: false when the window or its GDK window is absent, otherwise the
fullscreen bit of the reported window state. -/
def my_application_is_fullscreen_ref (self : MyApplication) : Bool :=
  match self.window with
  | none => false
  | some window =>
    match window.gdk_window with
    | none => false
    | some state => state.testBit 4

/-- Whether the state query of `my_application_is_fullscreen` can be made: the
window and its GDK window are both present. -/
def MyApplication.queryable (self : MyApplication) : Bool :=
  match self.window with
  | none => false
  | some window => window.gdk_window.isSome

/-! ## Sample states -/

/-- A single 1920x1080 monitor at the origin. -/
def oneMonitor : RECT → RECT := fun _ => ⟨0, 0, 1920, 1080⟩

/-- A visible overlapped window at (200,150)-(1000,750) that never was
fullscreen; the saved rectangle is zero, the saved styles are 0. -/
def freshWindow : FlutterWindow :=
  { handle := some ⟨0x10CF0000, 0x100, ⟨200, 150, 1000, 750⟩⟩, is_fullscreen_ := false,
    windowed_rect_ := ⟨0, 0, 0, 0⟩, windowed_style_ := 0, windowed_ex_style_ := 0 }

/-- A windowed window on a monitor left of the primary one, whose right edge
is at x = 0. -/
def leftWindow : FlutterWindow :=
  { handle := some ⟨0x10CF0000, 0x100, ⟨-1280, 100, 0, 700⟩⟩, is_fullscreen_ := false,
    windowed_rect_ := ⟨0, 0, 0, 0⟩, windowed_style_ := 0, windowed_ex_style_ := 0 }

/-- A windowed window on a monitor above the primary one, whose bottom edge
is at y = 0. -/
def topWindow : FlutterWindow :=
  { handle := some ⟨0x10CF0000, 0x100, ⟨100, -900, 900, 0⟩⟩, is_fullscreen_ := false,
    windowed_rect_ := ⟨0, 0, 0, 0⟩, windowed_style_ := 0, windowed_ex_style_ := 0 }

/-- A fullscreen window with a snapshot taken from (200,150)-(1000,750). -/
def fullWindow : FlutterWindow :=
  { handle := some ⟨0x100B0000, 0, ⟨0, 0, 1920, 1080⟩⟩, is_fullscreen_ := true,
    windowed_rect_ := ⟨200, 150, 1000, 750⟩, windowed_style_ := 0x10CF0000,
    windowed_ex_style_ := 0x100 }

/-- A fullscreen flag without any snapshot: saved styles 0, saved rectangle
zero. -/
def flaggedNoSnapshot : FlutterWindow :=
  { handle := some ⟨0x100B0000, 0, ⟨0, 0, 1920, 1080⟩⟩, is_fullscreen_ := true,
    windowed_rect_ := ⟨0, 0, 0, 0⟩, windowed_style_ := 0, windowed_ex_style_ := 0 }

/-- A window object whose handle is gone while the flag is still set. -/
def destroyedWindow : FlutterWindow :=
  { handle := none, is_fullscreen_ := true,
    windowed_rect_ := ⟨200, 150, 1000, 750⟩, windowed_style_ := 0x10CF0000,
    windowed_ex_style_ := 0x100 }

/-- A GTK application whose window is fullscreen. -/
def gtkFull : MyApplication :=
  { window := some ⟨some 16, []⟩, is_fullscreen := true }

/-- A GTK application whose window is not fullscreen. -/
def gtkWindowed : MyApplication :=
  { window := some ⟨some 0, []⟩, is_fullscreen := false }

/-! ## Lemmas on the machine words -/

/-- Width added back to the left edge gives the right edge, in `LONG` arithmetic. -/
theorem wrapLong_add_sub (l : Int) {r : Int} (h : inLong r) :
    wrapLong (l + wrapLong (r - l)) = r := by
  unfold inLong at h
  unfold wrapLong
  omega

/-- On a 32 bit pattern, `s & ~m` is the bitwise difference of `s` and `m`. -/
theorem and_notLong_eq_ldiff {s : Nat} (h : LongBits s) (m : Nat) :
    s &&& notLong m = Nat.ldiff s m := by
  apply Nat.eq_of_testBit_eq
  intro i
  unfold notLong
  rw [Nat.testBit_and, Nat.testBit_xor, Nat.testBit_ldiff]
  by_cases hi : i < 32
  · have h1 : Nat.testBit 0xFFFFFFFF i = true := by
      have := Nat.testBit_two_pow_sub_one 32 i
      simpa [hi] using this
    rw [h1]
    cases Nat.testBit s i <;> cases Nat.testBit m i <;> rfl
  · have hs : Nat.testBit s i = false := by
      apply Nat.testBit_lt_two_pow
      unfold LongBits at h
      calc s < 2 ^ 32 := by norm_num; exact h
        _ ≤ 2 ^ i := Nat.pow_le_pow_right (by norm_num) (by omega)
    rw [hs]
    rfl

/-- The bits of the constant 16. -/
theorem testBit_sixteen (i : Nat) : Nat.testBit 16 i = decide (4 = i) := by
  have h : (2 ^ 4).testBit i = decide (4 = i) := Nat.testBit_two_pow
  exact h

/-- The test `(state & GDK_WINDOW_STATE_FULLSCREEN) != 0` reads bit 4 of the state. -/
theorem fullscreen_test_eq_testBit (state : Nat) :
    decide (state &&& GDK_WINDOW_STATE_FULLSCREEN ≠ 0) = state.testBit 4 := by
  unfold GDK_WINDOW_STATE_FULLSCREEN
  cases hb : state.testBit 4
  · have hz : state &&& 16 = 0 := by
      apply Nat.eq_of_testBit_eq
      intro i
      rw [Nat.testBit_and, testBit_sixteen, Nat.zero_testBit]
      by_cases hi : 4 = i
      · subst hi; simp [hb]
      · simp [hi]
    simp [hz]
  · have hne : state &&& 16 ≠ 0 := by
      intro hz
      have h4 : (state &&& 16).testBit 4 = true := by
        rw [Nat.testBit_and, testBit_sixteen, hb]; rfl
      rw [hz, Nat.zero_testBit] at h4
      exact Bool.noConfusion h4
    simp [hne]

/-- Bit 4 after the window manager applied a change. -/
theorem testBit_setFullscreenFlag (state : Nat) (full : Bool) :
    (setFullscreenFlag state full).testBit 4 = full := by
  unfold setFullscreenFlag GDK_WINDOW_STATE_FULLSCREEN
  cases full
  · simp only [Bool.false_eq_true, if_false]
    rw [Nat.testBit_xor, Nat.testBit_and, testBit_sixteen]
    cases state.testBit 4 <;> rfl
  · simp only [if_true]
    rw [Nat.testBit_or, testBit_sixteen]
    cases state.testBit 4 <;> rfl

/-- After the drain of a queue that ends with a change to `full`, the GDK
window, when there is one, has its fullscreen bit equal to `full`. -/
theorem drain_events_append (l : List Bool) (full : Bool) (state : Nat) :
    ∃ state2, drain_events (l ++ [full]) (some state) = some state2 ∧
      state2.testBit 4 = full := by
  induction l generalizing state with
  | nil => exact ⟨setFullscreenFlag state full, rfl, testBit_setFullscreenFlag state full⟩
  | cons b rest ih => exact ih (setFullscreenFlag state b)

/-! ## The claims on `FlutterWindow` -/

/-- C1 (defect of the code): the rectangle stored by `EnterFullscreen` is not
restored by `ExitFullscreen` when its `right` or `bottom` is 0.  A windowed
window at (-1280,100)-(0,700), on a monitor left of the primary one, and a
windowed window at (100,-900)-(900,0), on a monitor above it, both have their
rectangle stored as it is and both come back at (100,100)-(1124,868): the test
for a missing snapshot takes the coordinate 0 of a stored one for its
absence. -/
theorem C1_failing_input :
    leftWindow.is_fullscreen_ = false ∧
    leftWindow.handle = some ⟨0x10CF0000, 0x100, ⟨-1280, 100, 0, 700⟩⟩ ∧
    (leftWindow.EnterFullscreen oneMonitor).2.windowed_rect_ = ⟨-1280, 100, 0, 700⟩ ∧
    ((leftWindow.EnterFullscreen oneMonitor).2.ExitFullscreen).2.handle =
      some ⟨0x10CF0000, 0x100, ⟨100, 100, 1124, 868⟩⟩ ∧
    ¬ (((leftWindow.EnterFullscreen oneMonitor).2.ExitFullscreen).2.handle =
      leftWindow.handle) ∧
    topWindow.is_fullscreen_ = false ∧
    topWindow.handle = some ⟨0x10CF0000, 0x100, ⟨100, -900, 900, 0⟩⟩ ∧
    (topWindow.EnterFullscreen oneMonitor).2.windowed_rect_ = ⟨100, -900, 900, 0⟩ ∧
    ((topWindow.EnterFullscreen oneMonitor).2.ExitFullscreen).2.handle =
      some ⟨0x10CF0000, 0x100, ⟨100, 100, 1124, 868⟩⟩ ∧
    ¬ (((topWindow.EnterFullscreen oneMonitor).2.ExitFullscreen).2.handle =
      topWindow.handle) := by
  decide

/-- Extent of the defect: away from the values 0 of the live style, of `right`
and of `bottom`, `EnterFullscreen` followed by `ExitFullscreen` returns true
twice and gives the window back its style, extended style and rectangle. -/
theorem roundtrip_off_zero (monitor : RECT → RECT) (self : FlutterWindow) (w : Win32)
    (hh : self.handle = some w) (hf : self.is_fullscreen_ = false)
    (hs : w.style ≠ 0) (hr : w.rect.right ≠ 0) (hb : w.rect.bottom ≠ 0)
    (hl : w.rect.inLong) :
    (self.EnterFullscreen monitor).1 = true ∧
    ((self.EnterFullscreen monitor).2.ExitFullscreen).1 = true ∧
    ((self.EnterFullscreen monitor).2.ExitFullscreen).2.handle = some w := by
  obtain ⟨style, exStyle, ⟨l, t, r, b⟩⟩ := w
  obtain ⟨-, -, hr2, hb2⟩ := hl
  simp only at hs hr hb hr2 hb2
  simp [FlutterWindow.EnterFullscreen, FlutterWindow.ExitFullscreen, hh, hf, hs, hr, hb,
    Win32.SetStyle, Win32.SetExStyle, Win32.SetWindowPos, wrapLong_add_sub, hr2, hb2]

/-- The round trip at the window (200,150)-(1000,750) with one monitor. -/
theorem roundtrip_off_zero_witness :
    (freshWindow.EnterFullscreen oneMonitor).1 = true ∧
    ((freshWindow.EnterFullscreen oneMonitor).2.ExitFullscreen).1 = true ∧
    ((freshWindow.EnterFullscreen oneMonitor).2.ExitFullscreen).2.handle =
      some ⟨0x10CF0000, 0x100, ⟨200, 150, 1000, 750⟩⟩ :=
  roundtrip_off_zero oneMonitor freshWindow ⟨0x10CF0000, 0x100, ⟨200, 150, 1000, 750⟩⟩
    rfl rfl (by decide) (by decide) (by decide) (by decide)

/-- C4 (as stated, refuted): `ExitFullscreen` on a window that never entered
fullscreen returns true but the window keeps its rectangle and style; it does
not get the rectangle (100,100)-(1124,868) nor the style `WS_OVERLAPPEDWINDOW`. -/
theorem C4_counterexample :
    freshWindow.is_fullscreen_ = false ∧ freshWindow.windowed_style_ = 0 ∧
    freshWindow.windowed_ex_style_ = 0 ∧
    freshWindow.ExitFullscreen.1 = true ∧
    freshWindow.ExitFullscreen.2.handle =
      some ⟨0x10CF0000, 0x100, ⟨200, 150, 1000, 750⟩⟩ ∧
    ¬ (freshWindow.ExitFullscreen.2.handle.map (fun w => w.rect) =
      some ⟨100, 100, 1124, 868⟩) ∧
    ¬ (freshWindow.ExitFullscreen.2.handle.map (fun w => w.style) =
      some WS_OVERLAPPEDWINDOW) := by
  decide

/-- C4 (amended): `ExitFullscreen` with `is_fullscreen_` false (as it is when
`EnterFullscreen` was never called) returns true and changes nothing.  The
default geometry is what `ExitFullscreen` gives when it runs with the flag set
on a valid handle and finds the saved style 0 and the saved rectangle with
`right` or `bottom` 0: the style becomes `WS_OVERLAPPEDWINDOW`, the rectangle
(100,100)-(1124,868), and the call returns true. -/
theorem C4_exit_without_snapshot (self : FlutterWindow)
    (hf : self.is_fullscreen_ = false)
    (flagged : FlutterWindow) (w : Win32) (hh : flagged.handle = some w)
    (hf2 : flagged.is_fullscreen_ = true) (hs : flagged.windowed_style_ = 0)
    (hr : flagged.windowed_rect_.right = 0 ∨ flagged.windowed_rect_.bottom = 0) :
    self.ExitFullscreen = (true, self) ∧
    flagged.ExitFullscreen.1 = true ∧
    flagged.ExitFullscreen.2.handle =
      some ⟨WS_OVERLAPPEDWINDOW, flagged.windowed_ex_style_, ⟨100, 100, 1124, 868⟩⟩ := by
  refine ⟨?_, ?_, ?_⟩
  · simp [FlutterWindow.ExitFullscreen, hf]
  · simp [FlutterWindow.ExitFullscreen, hf2, hh]
  · simp [FlutterWindow.ExitFullscreen, hf2, hh, hs, hr, Win32.SetStyle, Win32.SetExStyle,
      Win32.SetWindowPos]
    decide

/-- C4 (amended) at a window that never was fullscreen and at a flagged window without snapshot. -/
theorem C4_exit_without_snapshot_witness :
    freshWindow.ExitFullscreen = (true, freshWindow) ∧
    flaggedNoSnapshot.ExitFullscreen.1 = true ∧
    flaggedNoSnapshot.ExitFullscreen.2.handle =
      some ⟨WS_OVERLAPPEDWINDOW, flaggedNoSnapshot.windowed_ex_style_,
        ⟨100, 100, 1124, 868⟩⟩ :=
  C4_exit_without_snapshot freshWindow rfl flaggedNoSnapshot
    ⟨0x100B0000, 0, ⟨0, 0, 1920, 1080⟩⟩ rfl rfl rfl (Or.inl rfl)

/-- C6: on a valid handle, a second `EnterFullscreen` returns true like the
first and leaves the whole state (flag, snapshot, live style, extended style
and rectangle) as the first call left it; the same holds for
`ExitFullscreen`. -/
theorem C6_idempotent (monitor : RECT → RECT) (self : FlutterWindow) (w : Win32)
    (hh : self.handle = some w) :
    (self.EnterFullscreen monitor).1 = true ∧
    ((self.EnterFullscreen monitor).2.EnterFullscreen monitor).1 = true ∧
    ((self.EnterFullscreen monitor).2.EnterFullscreen monitor).2 =
      (self.EnterFullscreen monitor).2 ∧
    self.ExitFullscreen.1 = true ∧
    self.ExitFullscreen.2.ExitFullscreen.1 = true ∧
    self.ExitFullscreen.2.ExitFullscreen.2 = self.ExitFullscreen.2 := by
  cases hf : self.is_fullscreen_ <;>
    simp [FlutterWindow.EnterFullscreen, FlutterWindow.ExitFullscreen, hf, hh]

/-- C6 at the window (200,150)-(1000,750) with one monitor. -/
theorem C6_idempotent_witness :
    (freshWindow.EnterFullscreen oneMonitor).1 = true ∧
    ((freshWindow.EnterFullscreen oneMonitor).2.EnterFullscreen oneMonitor).1 = true ∧
    ((freshWindow.EnterFullscreen oneMonitor).2.EnterFullscreen oneMonitor).2 =
      (freshWindow.EnterFullscreen oneMonitor).2 ∧
    freshWindow.ExitFullscreen.1 = true ∧
    freshWindow.ExitFullscreen.2.ExitFullscreen.1 = true ∧
    freshWindow.ExitFullscreen.2.ExitFullscreen.2 = freshWindow.ExitFullscreen.2 :=
  C6_idempotent oneMonitor freshWindow ⟨0x10CF0000, 0x100, ⟨200, 150, 1000, 750⟩⟩ rfl

/-- C10: on every state whose machine words are in range, `EnterFullscreen`
is the reference definition `EnterFullscreen_ref`, and it returns false exactly
when the window is not fullscreen and the handle is invalid. -/
theorem C10_enter_refines (monitor : RECT → RECT) (self : FlutterWindow)
    (h : self.wordsInRange monitor) :
    self.EnterFullscreen monitor = EnterFullscreen_ref monitor self ∧
    ((self.EnterFullscreen monitor).1 = false ↔
      (self.is_fullscreen_ = false ∧ self.handle = none)) := by
  obtain ⟨handle, flag, srect, sstyle, sex⟩ := self
  cases flag
  · cases handle with
    | none => simp [FlutterWindow.EnterFullscreen, EnterFullscreen_ref]
    | some w =>
      obtain ⟨hs, he, -, -, hr, hb⟩ := h
      simp [FlutterWindow.EnterFullscreen, EnterFullscreen_ref, Win32.SetStyle,
        Win32.SetExStyle, Win32.SetWindowPos, and_notLong_eq_ldiff hs,
        and_notLong_eq_ldiff he, wrapLong_add_sub _ hr, wrapLong_add_sub _ hb]
  · simp [FlutterWindow.EnterFullscreen, EnterFullscreen_ref]

/-- C10 at the window (200,150)-(1000,750) with one monitor. -/
theorem C10_enter_refines_witness :
    freshWindow.EnterFullscreen oneMonitor = EnterFullscreen_ref oneMonitor freshWindow ∧
    ((freshWindow.EnterFullscreen oneMonitor).1 = false ↔
      (freshWindow.is_fullscreen_ = false ∧ freshWindow.handle = none)) :=
  C10_enter_refines oneMonitor freshWindow
    (show LongBits _ ∧ LongBits _ ∧ RECT.inLong _ from ⟨by decide, by decide, by decide⟩)

/-- C8: for a message the engine did not consume, `WM_KEYDOWN` with
`VK_ESCAPE` on a windowed window changes nothing and is passed on to
`Win32Window::MessageHandler`; on a fullscreen window with a valid handle the
handler returns 0 itself and `is_fullscreen_` is false afterwards. -/
theorem C8_escape (monitor : RECT → RECT) (windowed : FlutterWindow)
    (hw : windowed.is_fullscreen_ = false)
    (full : FlutterWindow) (w : Win32) (hh : full.handle = some w)
    (hf : full.is_fullscreen_ = true) :
    windowed.MessageHandler monitor none WM_KEYDOWN VK_ESCAPE =
      (Handled.passed_on, windowed) ∧
    (full.MessageHandler monitor none WM_KEYDOWN VK_ESCAPE).1 = Handled.returned 0 ∧
    (full.MessageHandler monitor none WM_KEYDOWN VK_ESCAPE).2.is_fullscreen_ = false := by
  have h1 : ¬ (WM_KEYDOWN = WM_FONTCHANGE) := by decide
  have h2 : ¬ (VK_ESCAPE = VK_F11) := by decide
  refine ⟨?_, ?_, ?_⟩
  · simp [FlutterWindow.MessageHandler, h1, h2, hw]
  · simp [FlutterWindow.MessageHandler, h1, h2, hf]
  · simp [FlutterWindow.MessageHandler, h1, h2, hf, FlutterWindow.ExitFullscreen, hh]

/-- C8 at a windowed and at a fullscreen window. -/
theorem C8_escape_witness :
    freshWindow.MessageHandler oneMonitor none WM_KEYDOWN VK_ESCAPE =
      (Handled.passed_on, freshWindow) ∧
    (fullWindow.MessageHandler oneMonitor none WM_KEYDOWN VK_ESCAPE).1 =
      Handled.returned 0 ∧
    (fullWindow.MessageHandler oneMonitor none WM_KEYDOWN VK_ESCAPE).2.is_fullscreen_ =
      false :=
  C8_escape oneMonitor freshWindow rfl fullWindow ⟨0x100B0000, 0, ⟨0, 0, 1920, 1080⟩⟩ rfl rfl

/-! ## The claims on the command channel and on the GTK runner -/

/-- What `my_application_toggle_fullscreen` does when the window and its GDK
window are present and the window manager honours the request: it returns the
negation of the fullscreen bit it read, stores it in the flag, and after the
drain the GDK window reports that new state and nothing is pending. -/
theorem toggle_honoured (self : MyApplication) (window : GtkWindow) (state : Nat)
    (hw : self.window = some window) (hg : window.gdk_window = some state) :
    ∃ state2, state2.testBit 4 = !state.testBit 4 ∧
      my_application_toggle_fullscreen true self =
        (!state.testBit 4,
          { window := some ⟨some state2, []⟩, is_fullscreen := !state.testBit 4 }) := by
  obtain ⟨state2, hd, hb⟩ := drain_events_append window.pending (!state.testBit 4) state
  refine ⟨state2, hb, ?_⟩
  have ht := fullscreen_test_eq_testBit state
  cases hbit : state.testBit 4 <;> rw [hbit] at ht hd <;>
    simp only [Bool.not_false, Bool.not_true] at hd <;>
    simp [my_application_toggle_fullscreen, hw, hg, ht, gtk_window_request, GtkWindow.drain,
      hd]

/-- The value `my_application_is_fullscreen` returns. -/
theorem is_fullscreen_eq_ref (self : MyApplication) :
    (my_application_is_fullscreen self).1 = my_application_is_fullscreen_ref self := by
  obtain ⟨window, flag⟩ := self
  cases window with
  | none => rfl
  | some window =>
    obtain ⟨gdk, pending⟩ := window
    cases gdk with
    | none => rfl
    | some state => exact fullscreen_test_eq_testBit state

/-- C2 (as stated, refuted): on Windows the reply to "exitFullscreen" from a
fullscreen window with a valid handle is `success(true)`, not `success(false)`. -/
theorem C2_counterexample :
    fullWindow.is_fullscreen_ = true ∧ fullWindow.handle.isSome = true ∧
    (fullWindow.method_call_handler oneMonitor "exitFullscreen").1 =
      Reply.success_bool true ∧
    ¬ ((fullWindow.method_call_handler oneMonitor "exitFullscreen").1 =
      Reply.success_bool false) := by
  decide

/-- C2 (amended): on Linux, with the window present, "enterFullscreen" from a
windowed state is answered `success(true)` and "exitFullscreen" is answered
`success(false)` in every state.  On Windows, with a valid handle,
"enterFullscreen" from Windowed is answered `success(true)`, and
"exitFullscreen" from Fullscreen is answered `success(true)`, the result of
`ExitFullscreen`, while `is_fullscreen_` is false afterwards. -/
theorem C2_replies (honours : Bool) (app : MyApplication) (window : GtkWindow)
    (hw : app.window = some window)
    (hq : (my_application_is_fullscreen app).1 = false)
    (app2 : MyApplication)
    (monitor : RECT → RECT) (self : FlutterWindow) (w : Win32)
    (hh : self.handle = some w) (hf : self.is_fullscreen_ = false)
    (full : FlutterWindow) (w2 : Win32)
    (hh2 : full.handle = some w2) (hf2 : full.is_fullscreen_ = true) :
    (method_call_handler honours "enterFullscreen" app).1 = Reply.success_bool true ∧
    (method_call_handler honours "exitFullscreen" app2).1 = Reply.success_bool false ∧
    (self.method_call_handler monitor "enterFullscreen").1 = Reply.success_bool true ∧
    (full.method_call_handler monitor "exitFullscreen").1 = Reply.success_bool true ∧
    (full.method_call_handler monitor "exitFullscreen").2.is_fullscreen_ = false := by
  have hne : ¬ ("exitFullscreen" = "enterFullscreen") := by decide
  refine ⟨?_, ?_, ?_, ?_, ?_⟩
  · have hw2 : (my_application_is_fullscreen app).2.window = some window := by
      obtain ⟨gdk, pending⟩ := window
      cases gdk <;> simp [my_application_is_fullscreen, hw]
    simp [method_call_handler, hq, hw2]
  · simp [method_call_handler, hne]
  · simp [FlutterWindow.method_call_handler, FlutterWindow.EnterFullscreen, hf, hh]
  · simp [FlutterWindow.method_call_handler, hne, FlutterWindow.ExitFullscreen, hf2, hh2]
  · simp [FlutterWindow.method_call_handler, hne, FlutterWindow.ExitFullscreen, hf2, hh2]

/-- C2 (amended) at a windowed and a fullscreen window of each runner. -/
theorem C2_replies_witness :
    (method_call_handler true "enterFullscreen" gtkWindowed).1 = Reply.success_bool true ∧
    (method_call_handler true "exitFullscreen" gtkFull).1 = Reply.success_bool false ∧
    (freshWindow.method_call_handler oneMonitor "enterFullscreen").1 =
      Reply.success_bool true ∧
    (fullWindow.method_call_handler oneMonitor "exitFullscreen").1 =
      Reply.success_bool true ∧
    (fullWindow.method_call_handler oneMonitor "exitFullscreen").2.is_fullscreen_ = false :=
  C2_replies true gtkWindowed ⟨some 0, []⟩ rfl (by decide) gtkFull oneMonitor freshWindow
    ⟨0x10CF0000, 0x100, ⟨200, 150, 1000, 750⟩⟩ rfl rfl fullWindow
    ⟨0x100B0000, 0, ⟨0, 0, 1920, 1080⟩⟩ rfl rfl

/-- C3: a command whose name is none of "enterFullscreen", "exitFullscreen",
"toggleFullscreen", "isFullscreen" is answered "not implemented" by the Linux
handler, and by the Windows handler unless it is "ping" (answered "pong"); in
each case the whole state, flag and snapshot included, is unchanged. -/
theorem C3_unknown_command (method : String)
    (h1 : method ≠ "enterFullscreen") (h2 : method ≠ "exitFullscreen")
    (h3 : method ≠ "toggleFullscreen") (h4 : method ≠ "isFullscreen")
    (honours : Bool) (app : MyApplication)
    (monitor : RECT → RECT) (self : FlutterWindow) :
    method_call_handler honours method app = (Reply.not_implemented, app) ∧
    self.method_call_handler monitor method =
      (if method = "ping" then Reply.success_string "pong" else Reply.not_implemented,
        self) := by
  constructor
  · simp [method_call_handler, h1, h2, h3, h4]
  · by_cases hp : method = "ping" <;>
      simp [FlutterWindow.method_call_handler, h1, h2, h3, h4, hp]

/-- C3 at the command "frobnicate". -/
theorem C3_unknown_command_witness :
    method_call_handler true "frobnicate" gtkFull = (Reply.not_implemented, gtkFull) ∧
    fullWindow.method_call_handler oneMonitor "frobnicate" =
      (if "frobnicate" = "ping" then Reply.success_string "pong"
        else Reply.not_implemented, fullWindow) :=
  C3_unknown_command "frobnicate" (by decide) (by decide) (by decide) (by decide) true
    gtkFull oneMonitor fullWindow

/-- C5 (as stated, refuted): on a window object whose handle is absent while
the flag is set, `FlutterWindow::IsFullscreen` returns true, where the
reference gives false whatever the operating system would report. -/
theorem C5_counterexample :
    destroyedWindow.handle = none ∧
    destroyedWindow.IsFullscreen.1 = true ∧
    IsFullscreen_ref (fun _ => true) destroyedWindow = false ∧
    IsFullscreen_ref (fun _ => false) destroyedWindow = false := by
  decide

/-- C5 (amended): `my_application_is_fullscreen` returns the reference value in
every state, and stores it in the flag when the window and its GDK window are
present, leaving the flag as it was otherwise; nothing else changes.
`FlutterWindow::IsFullscreen` returns the stored flag and changes nothing. -/
theorem C5_is_fullscreen (app : MyApplication) (self : FlutterWindow) :
    (my_application_is_fullscreen app).1 = my_application_is_fullscreen_ref app ∧
    (my_application_is_fullscreen app).2 =
      { app with is_fullscreen :=
          if app.queryable then my_application_is_fullscreen_ref app
          else app.is_fullscreen } ∧
    self.IsFullscreen = (self.is_fullscreen_, self) := by
  refine ⟨is_fullscreen_eq_ref app, ?_, rfl⟩
  obtain ⟨window, flag⟩ := app
  cases window with
  | none => rfl
  | some window =>
    obtain ⟨gdk, pending⟩ := window
    cases gdk with
    | none => rfl
    | some state =>
      show ({ window := some ⟨some state, pending⟩,
              is_fullscreen := decide (state &&& GDK_WINDOW_STATE_FULLSCREEN ≠ 0) } :
            MyApplication) =
          { window := some ⟨some state, pending⟩, is_fullscreen := state.testBit 4 }
      rw [fullscreen_test_eq_testBit]

/-- C7: two calls of `ToggleFullscreen` bring `IsFullscreen()` back to its
value, in every state of the Windows runner, and in every state of the GTK
runner when the window manager honours each request (also when the first
reading is itself a call that runs before the two toggles). -/
theorem C7_toggle_twice (monitor : RECT → RECT) (self : FlutterWindow)
    (app : MyApplication) :
    ((self.ToggleFullscreen monitor).2.ToggleFullscreen monitor).2.IsFullscreen.1 =
      self.IsFullscreen.1 ∧
    (my_application_is_fullscreen
      (my_application_toggle_fullscreen true
        (my_application_toggle_fullscreen true app).2).2).1 =
      (my_application_is_fullscreen app).1 ∧
    (my_application_is_fullscreen
      (my_application_toggle_fullscreen true
        (my_application_toggle_fullscreen true
          (my_application_is_fullscreen app).2).2).2).1 =
      (my_application_is_fullscreen app).1 := by
  have key : ∀ a : MyApplication,
      (my_application_is_fullscreen
        (my_application_toggle_fullscreen true
          (my_application_toggle_fullscreen true a).2).2).1 =
        (my_application_is_fullscreen a).1 := by
    intro a
    cases hw : a.window with
    | none => simp [my_application_toggle_fullscreen, hw]
    | some window =>
      cases hg : window.gdk_window with
      | none => simp [my_application_toggle_fullscreen, hw, hg]
      | some state =>
        obtain ⟨s2, hb2, e1⟩ := toggle_honoured a window state hw hg
        obtain ⟨s3, hb3, e2⟩ := toggle_honoured
          { window := some ⟨some s2, []⟩, is_fullscreen := !state.testBit 4 }
          ⟨some s2, []⟩ s2 rfl rfl
        rw [e1, e2, is_fullscreen_eq_ref, is_fullscreen_eq_ref]
        simp [my_application_is_fullscreen_ref, hw, hg, hb3, hb2]
  refine ⟨?_, key app, ?_⟩
  · obtain ⟨handle, flag, srect, sstyle, sex⟩ := self
    cases flag <;> cases handle <;>
      simp [FlutterWindow.ToggleFullscreen, FlutterWindow.EnterFullscreen,
        FlutterWindow.ExitFullscreen, FlutterWindow.IsFullscreen]
  · rw [key, is_fullscreen_eq_ref, is_fullscreen_eq_ref]
    obtain ⟨window, flag⟩ := app
    cases window with
    | none => rfl
    | some window =>
      obtain ⟨gdk, pending⟩ := window
      cases gdk <;> rfl

/-- C9 (as stated, refuted): on Linux `my_application_toggle_fullscreen` from a
fullscreen window, with window and GDK window present, returns false. -/
theorem C9_counterexample :
    gtkFull.queryable = true ∧ (my_application_is_fullscreen gtkFull).1 = true ∧
    (my_application_toggle_fullscreen true gtkFull).1 = false ∧
    (method_call_handler true "toggleFullscreen" gtkFull).1 = Reply.success_bool false := by
  decide

/-- C9 (amended): `FlutterWindow::ToggleFullscreen` is `ExitFullscreen` when
the flag is set and `EnterFullscreen` otherwise, and returns true on a valid
handle from either state.  `my_application_toggle_fullscreen`, with window and
GDK window present, returns the new state: the negation of the fullscreen bit
it read.  On both platforms the "toggleFullscreen" reply carries the returned
value. -/
theorem C9_toggle_result (monitor : RECT → RECT) (self : FlutterWindow) (w : Win32)
    (hh : self.handle = some w)
    (honours : Bool) (app : MyApplication) (window : GtkWindow) (state : Nat)
    (hw : app.window = some window) (hg : window.gdk_window = some state) :
    self.ToggleFullscreen monitor =
      (if self.is_fullscreen_ = true then self.ExitFullscreen
        else self.EnterFullscreen monitor) ∧
    (self.ToggleFullscreen monitor).1 = true ∧
    (self.method_call_handler monitor "toggleFullscreen").1 =
      Reply.success_bool (self.ToggleFullscreen monitor).1 ∧
    (my_application_toggle_fullscreen honours app).1 = !state.testBit 4 ∧
    (my_application_toggle_fullscreen honours app).1 =
      !(my_application_is_fullscreen app).1 ∧
    (method_call_handler honours "toggleFullscreen" app).1 =
      Reply.success_bool (my_application_toggle_fullscreen honours app).1 := by
  have hn1 : ¬ ("toggleFullscreen" = "enterFullscreen") := by decide
  have hn2 : ¬ ("toggleFullscreen" = "exitFullscreen") := by decide
  have ht := fullscreen_test_eq_testBit state
  have hres : (my_application_toggle_fullscreen honours app).1 = !state.testBit 4 := by
    cases hbit : state.testBit 4 <;> rw [hbit] at ht <;>
      simp [my_application_toggle_fullscreen, hw, hg, ht]
  refine ⟨rfl, ?_, ?_, hres, ?_, ?_⟩
  · cases hf : self.is_fullscreen_ <;>
      simp [FlutterWindow.ToggleFullscreen, FlutterWindow.EnterFullscreen,
        FlutterWindow.ExitFullscreen, hf, hh]
  · simp [FlutterWindow.method_call_handler, hn1, hn2]
  · rw [hres, is_fullscreen_eq_ref]
    simp [my_application_is_fullscreen_ref, hw, hg]
  · simp [method_call_handler, hn1, hn2]

/-- C9 (amended) at a fullscreen window of each runner. -/
theorem C9_toggle_result_witness :
    fullWindow.ToggleFullscreen oneMonitor =
      (if fullWindow.is_fullscreen_ = true then fullWindow.ExitFullscreen
        else fullWindow.EnterFullscreen oneMonitor) ∧
    (fullWindow.ToggleFullscreen oneMonitor).1 = true ∧
    (fullWindow.method_call_handler oneMonitor "toggleFullscreen").1 =
      Reply.success_bool (fullWindow.ToggleFullscreen oneMonitor).1 ∧
    (my_application_toggle_fullscreen true gtkFull).1 = !Nat.testBit 16 4 ∧
    (my_application_toggle_fullscreen true gtkFull).1 =
      !(my_application_is_fullscreen gtkFull).1 ∧
    (method_call_handler true "toggleFullscreen" gtkFull).1 =
      Reply.success_bool (my_application_toggle_fullscreen true gtkFull).1 :=
  C9_toggle_result oneMonitor fullWindow ⟨0x100B0000, 0, ⟨0, 0, 1920, 1080⟩⟩ rfl true
    gtkFull ⟨some 16, []⟩ 16 rfl rfl

end Runner
